import Mathlib

/-!
Shallow embedding of the merchant-dashboard pipeline in `src/app.py`
(load → validate columns → normalize fields → filter by merchant →
aggregate by day → extract min/max date → filter by date range).

Modelling conventions:
* Calendar dates are encoded as `Nat` (an arbitrary order-preserving day
  encoding); an unparseable date is `none`, mirroring
  `pd.to_datetime(..., errors="coerce")` producing `NaT` (line 118).
* Monetary amounts are `ℚ`; an unparseable amount is `none`, mirroring
  `pd.to_numeric(..., errors="coerce")` producing `NaN` (line 119).
* The pandas group keys are produced sorted ascending (`groupby` with the
  default `sort=True`, followed by `sort_values("date")` on line 148); this
  is modelled by `List.insertionSort` over the deduplicated keys.
* The `NaT` group that `groupby(..., dropna=False)` (line 139) creates for
  rows with an unparseable date is immediately removed by
  `dropna(subset=["date"])` (line 148); the embedding fuses the two steps,
  so group keys range over parseable dates only.
* `st.warning`/`st.error` followed by `st.stop`, and an unhandled exception,
  are modelled as distinguished outcomes of a total function.
-/

namespace App

/-- A raw CSV row restricted to the three columns the pipeline reads
(line 110 of src/app.py); all other columns never influence the result. -/
structure RawRow where
  merchant : String
  dateRaw : String
  amountRaw : String
deriving DecidableEq, Repr

/-- A loaded table: its column names and its rows. -/
structure Table where
  cols : List String
  rows : List RawRow
deriving DecidableEq, Repr

/-- The two candidate CSV locations tried in order (line 95). -/
def csvCandidates : List String :=
  ["sample_merchant_transactions.csv", "data/sample_merchant_transactions.csv"]

/-- The message of the `FileNotFoundError` raised when every candidate fails
(lines 102 to 105); quote marks of the source text omitted. -/
def csvNotFoundMsg : String :=
  "CSV not found. Place it at repo root as sample_merchant_transactions.csv or under data/ as data/sample_merchant_transactions.csv."

/-- The loader `load_transactions` (lines 93 to 105): try each candidate path
in order with `pd.read_csv`; on the first success return the table tagged
with the path that produced it (the tag models the added column on line 98);
if every attempt raises, raise `FileNotFoundError` with `csvNotFoundMsg`.
The read attempt is abstracted as `readCsv : String → Option Table`. -/
def load_transactions (readCsv : String → Option Table) :
    List String → Except String (Table × String)
  | [] => Except.error csvNotFoundMsg
  | p :: rest =>
    match readCsv p with
    | some df => Except.ok (df, p)
    | none => load_transactions readCsv rest

/-- The required column names (line 110). -/
def needed : List String :=
  ["Merchant Number - Business Name", "Transaction Date", "Settle Amount"]

/-- The missing required columns in sorted order, as interpolated on
line 113 via `sorted(missing)`. -/
def missingCols (t : Table) : List String :=
  List.insertionSort (· ≤ ·) (needed.filter (fun c => !(t.cols.contains c)))

/-- The schema check (lines 110 to 114): if any required column is absent,
fail with the error message of line 113 listing the missing names sorted;
otherwise the table passes through unchanged. -/
def validateSchema (t : Table) : Except String Table :=
  if missingCols t = [] then Except.ok t
  else
    Except.error
      ("Missing required column(s) in CSV: " ++ String.intercalate ", " (missingCols t))

/-- A row after field normalization (lines 117 to 119): identifier trimmed,
date and amount parsed with unparseable values becoming `none`. -/
structure Row where
  merchant : String
  date : Option Nat
  amount : Option ℚ
deriving DecidableEq, Repr

/-- Field normalization (lines 117 to 119), abstracting the date and amount
parsers: every row is mapped, none is dropped and none raises. -/
def normalize (parseDate : String → Option Nat) (parseAmount : String → Option ℚ)
    (rows : List RawRow) : List Row :=
  rows.map fun r =>
    { merchant := r.merchant.trim
      date := parseDate r.dateRaw
      amount := parseAmount r.amountRaw }

/-- The merchant filter (line 122): keep rows whose normalized identifier
is exactly equal to the configured merchant identifier. -/
def merchantFilter (mid : String) (rows : List Row) : List Row :=
  rows.filter fun r => r.merchant == mid

/-- The rows of the group with key `d` under
`groupby(merchant_tx["Transaction Date"].dt.date)` (line 139). -/
def groupRows (rows : List Row) (d : Nat) : List Row :=
  rows.filter fun r => r.date == some d

/-- The group keys of the daily aggregation, sorted ascending: the distinct
parseable dates (`groupby` sorts its keys, and line 148 sorts by date again;
the `NaT` group is dropped by `dropna(subset=["date"])` on line 148). -/
def groupKeys (rows : List Row) : List Nat :=
  List.insertionSort (· ≤ ·) (rows.filterMap Row.date).dedup

/-- One record of the `daily` frame (lines 137 to 149). -/
structure DailyRec where
  date : Nat
  revenue : ℚ
  orders : Nat
  aov : Option ℚ
deriving DecidableEq, Repr

/-- Aggregation of one date group (lines 140, 141 and 149):
`revenue` is the pandas `sum` of the Settle Amount column, which skips null
entries, hence each null amount contributes 0; `orders` is the pandas
`count` of the Settle Amount column, which counts the non-null entries only;
`aov` is `revenue / orders` masked by `.where(orders > 0)`, hence `none`
when the group has no non-null amount. -/
def aggGroup (d : Nat) (g : List Row) : DailyRec :=
  let revenue : ℚ := (g.map fun r => r.amount.getD 0).sum
  let orders : Nat := (g.filter fun r => r.amount.isSome).length
  { date := d
    revenue := revenue
    orders := orders
    aov := if 0 < orders then some (revenue / (orders : ℚ)) else none }

/-- The `daily` frame (lines 137 to 149): one aggregated record per distinct
parseable date, ascending. -/
def dailyAgg (rows : List Row) : List DailyRec :=
  (groupKeys rows).map fun d => aggGroup d (groupRows rows d)

/-- The `min_date` extraction `daily["date"].min()` (line 154): `none` on an
empty frame, where the source has no value to hand to `.date()` and the
render dies unhandled. -/
def minDate (ds : List DailyRec) : Option Nat :=
  (ds.map DailyRec.date).min?

/-- The `max_date` extraction `daily["date"].max()` (line 155). -/
def maxDate (ds : List DailyRec) : Option Nat :=
  (ds.map DailyRec.date).max?

/-- The inclusive date-range filter (line 162). -/
def rangeFilter (startD endD : Nat) (ds : List DailyRec) : List DailyRec :=
  ds.filter fun r => decide (startD ≤ r.date) && decide (r.date ≤ endD)

/-- The outcome of one render of the logged-in pipeline: the no-transactions
warning with halt (lines 123 to 129), death by unhandled exception at the
min/max-date extraction on an empty `daily` frame (line 154), or the
date-filtered daily frame handed to the charts. -/
inductive RenderOutcome where
  | noTransactions (mid : String)
  | crash
  | ok (view : List DailyRec)
deriving DecidableEq, Repr

/-- The pipeline from the normalized table to the rendered daily frame
(lines 122 to 162), with the operator-chosen window `[startD, endD]`. -/
def render (mid : String) (rows : List Row) (startD endD : Nat) : RenderOutcome :=
  let mt := merchantFilter mid rows
  if mt = [] then RenderOutcome.noTransactions mid
  else
    match minDate (dailyAgg mt), maxDate (dailyAgg mt) with
    | some _, some _ => RenderOutcome.ok (rangeFilter startD endD (dailyAgg mt))
    | _, _ => RenderOutcome.crash

/-- The daily records a render outcome displays: a warning or a crash
displays none. -/
def displayedRows : RenderOutcome → List DailyRec
  | RenderOutcome.noTransactions _ => []
  | RenderOutcome.crash => []
  | RenderOutcome.ok view => view

/-! Helper lemmas about the group keys and the daily aggregation. -/

theorem mem_groupKeys {rows : List Row} {d : Nat} :
    d ∈ groupKeys rows ↔ ∃ r ∈ rows, r.date = some d := by
  unfold groupKeys
  rw [(List.perm_insertionSort _ _).mem_iff, List.mem_dedup, List.mem_filterMap]

theorem groupKeys_sorted (rows : List Row) : (groupKeys rows).Pairwise (· < ·) := by
  have hs : (groupKeys rows).Sorted (· ≤ ·) := List.sorted_insertionSort _ _
  have hn : (groupKeys rows).Nodup :=
    (List.perm_insertionSort _ _).nodup_iff.mpr (List.nodup_dedup _)
  exact hs.lt_of_le hn

theorem mem_dailyAgg {rows : List Row} {rec : DailyRec} :
    rec ∈ dailyAgg rows ↔ ∃ d ∈ groupKeys rows, aggGroup d (groupRows rows d) = rec := by
  unfold dailyAgg
  rw [List.mem_map]

theorem aggGroup_date (d : Nat) (g : List Row) : (aggGroup d g).date = d := rfl

/-- [C1] On the failing input, a single merchant row dated on day 20240101
whose Settle Amount is unparseable, the code produces a group whose `orders`
field is 0 even though the group holds one row: the aggregation on line 141
of src/app.py takes the pandas `count` of the Settle Amount column, which
counts only the non-null entries, while the comment on line 134 documents
`orders = count rows`. -/
theorem C1_orders_drops_null_amounts :
    dailyAgg [{ merchant := "M001", date := some 20240101, amount := none }] =
      [{ date := 20240101, revenue := 0, orders := 0, aov := none }] := by
  norm_num [dailyAgg, groupKeys, groupRows, aggGroup, List.dedup, List.pwFilter,
    List.insertionSort, List.orderedInsert]

/-- [C2] Every record of the daily aggregate has a count `orders` that is a
non-negative integer, its `aov` is defined exactly when `orders > 0`, and a
defined `aov` equals `revenue / orders` exactly; the masking by
`.where(daily["orders"] > 0)` on line 149 leaves no division by zero. -/
theorem C2_aov_defined_iff_orders_pos (rows : List Row) (rec : DailyRec)
    (h : rec ∈ dailyAgg rows) :
    0 ≤ rec.orders ∧ (rec.aov.isSome ↔ 0 < rec.orders) ∧
      ∀ q : ℚ, rec.aov = some q → q = rec.revenue / (rec.orders : ℚ) := by
  obtain ⟨d, -, rfl⟩ := mem_dailyAgg.mp h
  refine ⟨Nat.zero_le _, ?_, ?_⟩
  · by_cases h0 : 0 < ((groupRows rows d).filter fun r => r.amount.isSome).length
    · simp [aggGroup, h0]
    · simp [aggGroup, h0]
  · intro q hq
    by_cases h0 : 0 < ((groupRows rows d).filter fun r => r.amount.isSome).length
    · simp [aggGroup, h0] at hq ⊢
      exact hq.symm
    · simp [aggGroup, h0] at hq

theorem C2_witness :
    0 ≤ (aggGroup 1 (groupRows [Row.mk "M" (some 1) (some 2)] 1)).orders ∧
      ((aggGroup 1 (groupRows [Row.mk "M" (some 1) (some 2)] 1)).aov.isSome ↔
        0 < (aggGroup 1 (groupRows [Row.mk "M" (some 1) (some 2)] 1)).orders) ∧
      ∀ q : ℚ, (aggGroup 1 (groupRows [Row.mk "M" (some 1) (some 2)] 1)).aov = some q →
        q = (aggGroup 1 (groupRows [Row.mk "M" (some 1) (some 2)] 1)).revenue /
          ((aggGroup 1 (groupRows [Row.mk "M" (some 1) (some 2)] 1)).orders : ℚ) :=
  C2_aov_defined_iff_orders_pos [Row.mk "M" (some 1) (some 2)] _
    (by simp [dailyAgg, groupKeys, List.dedup, List.insertionSort, List.orderedInsert])

/-- [C3] The spec scenario: the three rows of merchant M001 on days
20240101 (amounts 100 and 50) and 20240102 (amount 0), filtered to M001 and
aggregated by day, yield exactly the two records
(20240101, revenue 150, orders 2, aov 75) and
(20240102, revenue 0, orders 1, aov 0). -/
theorem C3_scenario_aggregates :
    dailyAgg (merchantFilter "M001"
      [{ merchant := "M001", date := some 20240101, amount := some 100 },
       { merchant := "M001", date := some 20240101, amount := some 50 },
       { merchant := "M001", date := some 20240102, amount := some 0 }]) =
      [{ date := 20240101, revenue := 150, orders := 2, aov := some 75 },
       { date := 20240102, revenue := 0, orders := 1, aov := some 0 }] := by
  norm_num [dailyAgg, groupKeys, groupRows, aggGroup, merchantFilter,
    List.insertionSort, List.orderedInsert, List.dedup, List.pwFilter]

theorem filterMap_date_filter (rows : List Row) :
    (rows.filter fun r => r.date.isSome).filterMap Row.date = rows.filterMap Row.date := by
  induction rows with
  | nil => rfl
  | cons r rs ih =>
    cases h : r.date <;> simp [List.filter_cons, List.filterMap_cons, h, ih]

theorem groupRows_filter_isSome (rows : List Row) (d : Nat) :
    groupRows (rows.filter fun r => r.date.isSome) d = groupRows rows d := by
  unfold groupRows
  rw [List.filter_filter]
  refine List.filter_congr fun r _ => ?_
  cases h : r.date <;> simp [h]

theorem dailyAgg_filter_isSome (rows : List Row) :
    dailyAgg rows = dailyAgg (rows.filter fun r => r.date.isSome) := by
  unfold dailyAgg
  unfold groupKeys
  rw [filterMap_date_filter]
  exact List.map_congr_left fun d _ => by rw [groupRows_filter_isSome]

theorem notMem_groupRows_of_date_none {rows : List Row} {r : Row}
    (hnone : r.date = none) (d : Nat) : r ∉ groupRows rows d := by
  intro hmem
  have hbeq := (List.mem_filter.mp hmem).2
  rw [hnone] at hbeq
  simp at hbeq

theorem minDate_isSome_of_parseable {mid : String} {rows : List Row}
    (h : ∃ r ∈ merchantFilter mid rows, r.date.isSome) :
    (minDate (dailyAgg (merchantFilter mid rows))).isSome ∧
      (maxDate (dailyAgg (merchantFilter mid rows))).isSome ∧
      merchantFilter mid rows ≠ [] := by
  obtain ⟨r, hr, hd⟩ := h
  obtain ⟨d, hd⟩ := Option.isSome_iff_exists.mp hd
  have hkey : d ∈ groupKeys (merchantFilter mid rows) :=
    mem_groupKeys.mpr ⟨r, hr, hd⟩
  have hda : aggGroup d (groupRows (merchantFilter mid rows) d) ∈
      dailyAgg (merchantFilter mid rows) :=
    mem_dailyAgg.mpr ⟨d, hkey, rfl⟩
  refine ⟨List.isSome_min?_of_mem (List.mem_map_of_mem DailyRec.date hda),
    List.isSome_max?_of_mem (List.mem_map_of_mem DailyRec.date hda), ?_⟩
  intro h
  rw [h] at hr
  exact absurd hr (List.not_mem_nil r)

theorem render_ne_crash_of_parseable (mid : String) (rows : List Row)
    (startD endD : Nat) (h : ∃ r ∈ merchantFilter mid rows, r.date.isSome) :
    render mid rows startD endD ≠ RenderOutcome.crash := by
  obtain ⟨hmin, hmax, hne⟩ := minDate_isSome_of_parseable h
  unfold render
  rw [if_neg hne]
  obtain ⟨mn, hmn⟩ := Option.isSome_iff_exists.mp hmin
  obtain ⟨mx, hmx⟩ := Option.isSome_iff_exists.mp hmax
  rw [hmn, hmx]
  simp

/-- [C4 counterexample] The claim as stated is false at the table holding
the single merchant row M001 with an unparseable date and amount 100: the
row is indeed excluded from every date bucket, but the rest of the
pipeline does not succeed — the daily frame comes out empty, so the
`daily["date"].min()` extraction on line 154 has nothing to yield and the
render dies, contradicting the clause that the load and the rest of the
pipeline still succeed for every input table. -/
theorem C4_counterexample_pipeline_dies :
    render "M001" [Row.mk "M001" none (some 100)] 0 0 = RenderOutcome.crash := rfl

/-- [C4 as amended] A row whose date fails to parse lands in no date
bucket of the daily aggregation (every bucket of line 139 keeps only rows
equal to its key date, and the bucket of the unparseable dates is removed
by the `dropna` on line 148, so the aggregate of a table equals the
aggregate of its parseable-date rows), and normalization itself
(lines 117 to 119) maps every row and drops none; the load and the
aggregation stay total, but the render as a whole survives only when at
least one merchant row keeps a parseable date — with none, the min-date
extraction of line 154 kills it (the C5 situation). -/
theorem C4_unparseable_date_in_no_bucket (rows : List Row) (r : Row)
    (_hr : r ∈ rows) (hnone : r.date = none) (pd : String → Option Nat)
    (pa : String → Option ℚ) (raw : List RawRow) (d : Nat) :
    r ∉ groupRows rows d ∧
      dailyAgg rows = dailyAgg (rows.filter fun x => x.date.isSome) ∧
      (normalize pd pa raw).length = raw.length ∧
      ∀ (mid : String) (startD endD : Nat),
        (∃ x ∈ merchantFilter mid rows, x.date.isSome) →
        render mid rows startD endD ≠ RenderOutcome.crash :=
  ⟨notMem_groupRows_of_date_none hnone d, dailyAgg_filter_isSome rows,
    List.length_map _ _, fun mid startD endD h =>
      render_ne_crash_of_parseable mid rows startD endD h⟩

theorem C4_witness :
    Row.mk "M" none none ∉ groupRows [Row.mk "M" none none, Row.mk "M" (some 1) none] 3 ∧
      dailyAgg [Row.mk "M" none none, Row.mk "M" (some 1) none] =
        dailyAgg ([Row.mk "M" none none, Row.mk "M" (some 1) none].filter
          fun x => x.date.isSome) ∧
      (normalize (fun _ => none) (fun _ => none) [RawRow.mk "a" "b" "c"]).length =
        [RawRow.mk "a" "b" "c"].length ∧
      render "M" [Row.mk "M" none none, Row.mk "M" (some 1) none] 0 2 ≠
        RenderOutcome.crash :=
  ⟨(C4_unparseable_date_in_no_bucket [Row.mk "M" none none, Row.mk "M" (some 1) none]
      (Row.mk "M" none none) (by simp) rfl (fun _ => none) (fun _ => none)
      [RawRow.mk "a" "b" "c"] 3).1,
    (C4_unparseable_date_in_no_bucket [Row.mk "M" none none, Row.mk "M" (some 1) none]
      (Row.mk "M" none none) (by simp) rfl (fun _ => none) (fun _ => none)
      [RawRow.mk "a" "b" "c"] 3).2.1,
    (C4_unparseable_date_in_no_bucket [Row.mk "M" none none, Row.mk "M" (some 1) none]
      (Row.mk "M" none none) (by simp) rfl (fun _ => none) (fun _ => none)
      [RawRow.mk "a" "b" "c"] 3).2.2.1,
    (C4_unparseable_date_in_no_bucket [Row.mk "M" none none, Row.mk "M" (some 1) none]
      (Row.mk "M" none none) (by simp) rfl (fun _ => none) (fun _ => none)
      [RawRow.mk "a" "b" "c"] 3).2.2.2 "M" 0 2
      ⟨Row.mk "M" (some 1) none, by simp [merchantFilter], rfl⟩⟩

/-- [C5] When the merchant-filtered table is non-empty but every one of its
dates is unparseable, the daily frame of lines 137 to 148 is empty, so the
`daily["date"].min()` extraction on line 154 has no date to yield and the
render dies there with nothing in lines 122 to 162 to catch it; as soon as
one merchant row has a parseable date the extraction yields a value and the
render survives to the date-filtered frame. -/
theorem C5_empty_daily_crashes_min_date (mid : String) (rows : List Row)
    (startD endD : Nat) :
    ((merchantFilter mid rows ≠ [] ∧
        ∀ r ∈ merchantFilter mid rows, r.date = none) →
      dailyAgg (merchantFilter mid rows) = [] ∧
        minDate (dailyAgg (merchantFilter mid rows)) = none ∧
        render mid rows startD endD = RenderOutcome.crash) ∧
      ((∃ r ∈ merchantFilter mid rows, r.date.isSome) →
        (minDate (dailyAgg (merchantFilter mid rows))).isSome ∧
          render mid rows startD endD ≠ RenderOutcome.crash) := by
  constructor
  · rintro ⟨hne, hall⟩
    have hkeys : groupKeys (merchantFilter mid rows) = [] := by
      unfold groupKeys
      have : (merchantFilter mid rows).filterMap Row.date = [] := by
        rw [List.filterMap_eq_nil_iff]
        intro r hr
        rw [hall r hr]
      rw [this]
      rfl
    have hda : dailyAgg (merchantFilter mid rows) = [] := by
      unfold dailyAgg
      rw [hkeys]
      rfl
    refine ⟨hda, by rw [hda]; rfl, ?_⟩
    unfold render
    rw [if_neg hne, hda]
    rfl
  · intro h
    exact ⟨(minDate_isSome_of_parseable h).1,
      render_ne_crash_of_parseable mid rows startD endD h⟩

theorem C5_witness :
    (dailyAgg (merchantFilter "M" [Row.mk "M" none none]) = [] ∧
        minDate (dailyAgg (merchantFilter "M" [Row.mk "M" none none])) = none ∧
        render "M" [Row.mk "M" none none] 0 0 = RenderOutcome.crash) ∧
      ((minDate (dailyAgg (merchantFilter "M" [Row.mk "M" (some 1) none]))).isSome ∧
        render "M" [Row.mk "M" (some 1) none] 0 2 ≠ RenderOutcome.crash) :=
  ⟨(C5_empty_daily_crashes_min_date "M" [Row.mk "M" none none] 0 0).1
      (by refine ⟨by simp [merchantFilter], ?_⟩; simp [merchantFilter]),
    (C5_empty_daily_crashes_min_date "M" [Row.mk "M" (some 1) none] 0 2).2
      (by exact ⟨Row.mk "M" (some 1) none, by simp [merchantFilter], rfl⟩)⟩

/-- [C6] A table with no row whose normalized identifier equals the merchant
identifier makes the guard on line 123 take the warning branch of
lines 124 to 129: the render halts with the no-transactions warning naming
that merchant, displays no aggregate records, and never reaches the code
that can die, so it does not crash. -/
theorem C6_no_transactions_warning (mid : String) (rows : List Row)
    (startD endD : Nat) (h : merchantFilter mid rows = []) :
    render mid rows startD endD = RenderOutcome.noTransactions mid ∧
      displayedRows (render mid rows startD endD) = [] ∧
      render mid rows startD endD ≠ RenderOutcome.crash := by
  have hr : render mid rows startD endD = RenderOutcome.noTransactions mid := by
    unfold render
    rw [if_pos h]
  exact ⟨hr, by rw [hr]; rfl, by rw [hr]; simp⟩

theorem C6_witness :
    render "M001" [Row.mk "M002" none none] 0 0 =
        RenderOutcome.noTransactions "M001" ∧
      displayedRows (render "M001" [Row.mk "M002" none none] 0 0) = [] ∧
      render "M001" [Row.mk "M002" none none] 0 0 ≠ RenderOutcome.crash :=
  C6_no_transactions_warning "M001" [Row.mk "M002" none none] 0 0
    (by simp [merchantFilter])

/-- [C7] The date-range filter of line 162 returns a subsequence of the
daily frame, order preserved: exactly the records whose date lies in the
inclusive window; and when the window is the pair extracted on lines 154
and 155 from the frame itself, every record passes and the frame is
returned unchanged. -/
theorem C7_range_filter_subsequence (startD endD : Nat) (ds : List DailyRec) :
    (rangeFilter startD endD ds).Sublist ds ∧
      (∀ rec : DailyRec,
        rec ∈ rangeFilter startD endD ds ↔
          rec ∈ ds ∧ startD ≤ rec.date ∧ rec.date ≤ endD) ∧
      ∀ mn mx : Nat, minDate ds = some mn → maxDate ds = some mx →
        rangeFilter mn mx ds = ds := by
  refine ⟨List.filter_sublist ds, ?_, ?_⟩
  · intro rec
    simp [rangeFilter, List.mem_filter, and_assoc]
  · intro mn mx hmn hmx
    unfold rangeFilter
    rw [List.filter_eq_self]
    intro rec hrec
    have hd : rec.date ∈ ds.map DailyRec.date := List.mem_map_of_mem DailyRec.date hrec
    have h1 : mn ≤ rec.date := (List.min?_eq_some_iff'.mp hmn).2 rec.date hd
    have h2 : rec.date ≤ mx := (List.max?_eq_some_iff'.mp hmx).2 rec.date hd
    simp [h1, h2]

theorem C7_witness :
    (rangeFilter 1 2 [DailyRec.mk 1 0 0 none, DailyRec.mk 2 0 0 none]).Sublist
        [DailyRec.mk 1 0 0 none, DailyRec.mk 2 0 0 none] ∧
      (DailyRec.mk 1 0 0 none ∈
          rangeFilter 1 2 [DailyRec.mk 1 0 0 none, DailyRec.mk 2 0 0 none] ↔
        DailyRec.mk 1 0 0 none ∈ [DailyRec.mk 1 0 0 none, DailyRec.mk 2 0 0 none] ∧
          1 ≤ (DailyRec.mk 1 0 0 none).date ∧ (DailyRec.mk 1 0 0 none).date ≤ 2) ∧
      rangeFilter 1 2 [DailyRec.mk 1 0 0 none, DailyRec.mk 2 0 0 none] =
        [DailyRec.mk 1 0 0 none, DailyRec.mk 2 0 0 none] :=
  ⟨(C7_range_filter_subsequence 1 2 _).1,
    (C7_range_filter_subsequence 1 2 _).2.1 _,
    (C7_range_filter_subsequence 1 2 _).2.2 1 2
      (by simp [minDate]) (by simp [maxDate])⟩

set_option maxRecDepth 100000 in
/-- [C8] The loader of lines 93 to 105 walks the candidate paths in order:
a path whose read succeeds ends the walk with its table tagged by that
path, a path whose read raises is skipped, and when every candidate has
failed the loader raises the `FileNotFoundError` whose message names both
attempted locations; the loop only ever reads. -/
theorem C8_loader_first_success (readCsv : String → Option Table) :
    (∀ (df : Table) (p : String) (rest : List String), readCsv p = some df →
        load_transactions readCsv (p :: rest) = Except.ok (df, p)) ∧
      (∀ (p : String) (rest : List String), readCsv p = none →
        load_transactions readCsv (p :: rest) = load_transactions readCsv rest) ∧
      (∀ paths : List String, (∀ p ∈ paths, readCsv p = none) →
        load_transactions readCsv paths = Except.error csvNotFoundMsg) ∧
      ∀ p ∈ csvCandidates, List.IsInfix p.data csvNotFoundMsg.data := by
  refine ⟨?_, ?_, ?_, ?_⟩
  · intro df p rest h
    simp [load_transactions, h]
  · intro p rest h
    simp [load_transactions, h]
  · intro paths h
    induction paths with
    | nil => rfl
    | cons p rest ih =>
      rw [show load_transactions readCsv (p :: rest) =
            (match readCsv p with
              | some df => Except.ok (df, p)
              | none => load_transactions readCsv rest) from rfl,
        h p (List.mem_cons_self p rest)]
      exact ih fun q hq => h q (List.mem_cons_of_mem p hq)
  · intro p hp
    fin_cases hp <;> decide

theorem C8_witness :
    load_transactions (fun _ => none) csvCandidates = Except.error csvNotFoundMsg ∧
      load_transactions (fun _ => some (Table.mk [] [])) ["a"] =
        Except.ok (Table.mk [] [], "a") ∧
      List.IsInfix ("sample_merchant_transactions.csv" : String).data
        csvNotFoundMsg.data :=
  ⟨(C8_loader_first_success fun _ => none).2.2.1 csvCandidates fun _ _ => rfl,
    (C8_loader_first_success fun _ => some (Table.mk [] [])).1 (Table.mk [] []) "a" [] rfl,
    (C8_loader_first_success fun _ => none).2.2.2 "sample_merchant_transactions.csv"
      (List.mem_cons_self _ _)⟩

theorem mem_missingCols {t : Table} {c : String} :
    c ∈ missingCols t ↔ c ∈ needed ∧ c ∉ t.cols := by
  unfold missingCols
  rw [(List.perm_insertionSort _ _).mem_iff, List.mem_filter]
  simp

/-- [C9] The schema check of lines 110 to 114: when some required column is
absent it fails with the error of line 113 whose list is exactly the
missing required names in sorted order, and when every required column is
present the table passes through unchanged. -/
theorem C9_schema_check (t : Table) :
    ((∀ c ∈ needed, c ∈ t.cols) → validateSchema t = Except.ok t) ∧
      ((∃ c ∈ needed, c ∉ t.cols) →
        validateSchema t =
          Except.error ("Missing required column(s) in CSV: " ++
            String.intercalate ", " (missingCols t))) ∧
      (∀ c : String, c ∈ missingCols t ↔ c ∈ needed ∧ c ∉ t.cols) ∧
      (missingCols t).Pairwise (· ≤ ·) := by
  have hmem : ∀ c : String, c ∈ missingCols t ↔ c ∈ needed ∧ c ∉ t.cols :=
    fun _ => mem_missingCols
  refine ⟨?_, ?_, hmem, List.sorted_insertionSort _ _⟩
  · intro hall
    have h0 : missingCols t = [] := by
      rw [List.eq_nil_iff_forall_not_mem]
      intro c hc
      obtain ⟨h1, h2⟩ := (hmem c).mp hc
      exact h2 (hall c h1)
    unfold validateSchema
    rw [if_pos h0]
  · rintro ⟨c, hc, hnot⟩
    have h0 : missingCols t ≠ [] := by
      intro h
      have hin := (hmem c).mpr ⟨hc, hnot⟩
      rw [h] at hin
      exact absurd hin (List.not_mem_nil c)
    unfold validateSchema
    rw [if_neg h0]

theorem C9_witness :
    validateSchema (Table.mk ["Transaction Date"] []) =
        Except.error ("Missing required column(s) in CSV: " ++
          String.intercalate ", " (missingCols (Table.mk ["Transaction Date"] []))) ∧
      validateSchema (Table.mk needed []) = Except.ok (Table.mk needed []) :=
  ⟨(C9_schema_check (Table.mk ["Transaction Date"] [])).2.1
      ⟨"Settle Amount", by decide, by decide⟩,
    (C9_schema_check (Table.mk needed [])).1 fun _ hc => hc⟩

/-- [C10] The daily frame holds exactly one record per distinct parseable
date of the merchant-filtered table, and its records are in strictly
ascending date order: the group keys of line 139 are distinct, the sort of
line 148 orders them, and a date appears among the keys exactly when some
row of the table carries it. -/
theorem C10_one_record_per_date_sorted (rows : List Row) :
    ((dailyAgg rows).map DailyRec.date).Pairwise (· < ·) ∧
      ∀ d : Nat,
        d ∈ (dailyAgg rows).map DailyRec.date ↔ ∃ r ∈ rows, r.date = some d := by
  have hmap : (dailyAgg rows).map DailyRec.date = groupKeys rows := by
    unfold dailyAgg
    rw [List.map_map]
    have hcomp : (DailyRec.date ∘ fun d => aggGroup d (groupRows rows d)) = id := by
      funext d
      rfl
    rw [hcomp, List.map_id]
  exact ⟨hmap ▸ groupKeys_sorted rows, fun d => by rw [hmap]; exact mem_groupKeys⟩

theorem C10_witness :
    ((dailyAgg [Row.mk "M" (some 2) none, Row.mk "M" (some 1) none]).map
        DailyRec.date).Pairwise (· < ·) ∧
      ∀ d : Nat,
        d ∈ (dailyAgg [Row.mk "M" (some 2) none, Row.mk "M" (some 1) none]).map
            DailyRec.date ↔
          ∃ r ∈ [Row.mk "M" (some 2) none, Row.mk "M" (some 1) none],
            r.date = some d :=
  C10_one_record_per_date_sorted [Row.mk "M" (some 2) none, Row.mk "M" (some 1) none]

end App
